import Mathlib

/-!
Verification of the self-check cache of `src/ins/_internal/utils/outdated.py`:
the `SelfCheckState` store (load/save of `selfcheck.json`) and the
`ins_version_check` orchestrator.

Shallow embedding conventions:
* A `datetime.datetime` (UTC, second precision) is a `DateTime` record; the
  difference `(a - b).total_seconds()` is modelled exactly as
  `a.toSeconds - b.toSeconds : Int` via civil-calendar day numbering.
* `strftime`/`strptime` on the fixed format `%Y-%m-%dT%H:%M:%SZ` are
  `formatTimestamp` / `parseTimestamp`; the parser reproduces CPython's
  acceptance set on this format (four year digits, one or two digits per
  remaining field, space-padded day, case-insensitive `T`/`Z`, full
  consumption, constructor range validation), with `none` standing for
  the `ValueError` strptime raises.
* The JSON state file holds an object of objects with string values; a
  parsed document is an association list `Doc`.  The filesystem slot at the
  state-file path is a `FileState`: absent, or present with its parse
  result (`none` = the bytes are not valid JSON) and its raw bytes.
* Python exceptions are `Except Exc`; external collaborators
  (`check_path_owner`, the lockfile, `PackageFinder`, `pkg_resources`,
  `get_installed_version`) are oracle fields of `Env`, per §6 of the spec.
-/

/-- A UTC wall-clock instant at second precision, as in `datetime.datetime`
with zero microseconds. -/
structure DateTime where
  year : Nat
  month : Nat
  day : Nat
  hour : Nat
  minute : Nat
  second : Nat
deriving DecidableEq, Repr

/-- Civil-calendar day number (days since 1970-01-01) of a proleptic
Gregorian date, the standard days-from-civil algorithm; written for
truncating integer division, which is what `Int./` provides for the
non-negative intermediate values arising from years ≥ 1. -/
def daysFromCivil (y m d : Nat) : Int :=
  let y' : Int := if m ≤ 2 then (y : Int) - 1 else (y : Int)
  let era : Int := (if 0 ≤ y' then y' else y' - 399) / 400
  let yoe : Int := y' - era * 400
  let mp : Int := ((m : Int) + 9) % 12
  let doy : Int := (153 * mp + 2) / 5 + (d : Int) - 1
  let doe : Int := yoe * 365 + yoe / 4 - yoe / 100 + doy
  era * 146097 + doe - 719468

/-- Seconds since the Unix epoch of a `DateTime`; `(a - b).total_seconds()`
on second-precision datetimes equals `a.toSeconds - b.toSeconds`. -/
def DateTime.toSeconds (t : DateTime) : Int :=
  daysFromCivil t.year t.month t.day * 86400
    + (t.hour : Int) * 3600 + (t.minute : Int) * 60 + (t.second : Int)

def isLeapYear (y : Nat) : Bool :=
  (y % 4 = 0 && y % 100 ≠ 0) || y % 400 = 0

def daysInMonth (y m : Nat) : Nat :=
  if m = 2 then (if isLeapYear y then 29 else 28)
  else if m = 4 || m = 6 || m = 9 || m = 11 then 30
  else 31

/-- Field validation performed by the `datetime` constructor (which
`strptime` calls): the ranges a real datetime must satisfy. -/
def DateTime.valid (t : DateTime) : Bool :=
  decide (1 ≤ t.year) && decide (t.year ≤ 9999) &&
  decide (1 ≤ t.month) && decide (t.month ≤ 12) &&
  decide (1 ≤ t.day) && decide (t.day ≤ daysInMonth t.year t.month) &&
  decide (t.hour ≤ 23) && decide (t.minute ≤ 59) && decide (t.second ≤ 59)

/-- Left-pad the decimal rendering of `n` with zeros to width `w`
(`%02d` / `%04d`). -/
def padNum (w n : Nat) : String :=
  let s := toString n
  String.mk (List.replicate (w - s.length) '0') ++ s

/-- `t.strftime(SELFCHECK_DATE_FMT)` with `SELFCHECK_DATE_FMT =
"%Y-%m-%dT%H:%M:%SZ"`. -/
def formatTimestamp (t : DateTime) : String :=
  padNum 4 t.year ++ "-" ++ padNum 2 t.month ++ "-" ++ padNum 2 t.day ++ "T" ++
  padNum 2 t.hour ++ ":" ++ padNum 2 t.minute ++ ":" ++ padNum 2 t.second ++ "Z"

def digitVal (c : Char) : Option Nat :=
  if c.isDigit then some (c.toNat - 48) else none

/-- Take exactly four digits (CPython's `%Y` pattern `\d\d\d\d`). -/
def takeDigits4 : List Char → Option (Nat × List Char)
  | c1 :: c2 :: c3 :: c4 :: rest => do
    let a ← digitVal c1
    let b ← digitVal c2
    let c ← digitVal c3
    let d ← digitVal c4
    pure (1000 * a + 100 * b + 10 * c + d, rest)
  | _ => none

/-- Take one or two digits, greedily.  Every numeric field of the format is
followed by a non-digit literal, so this is equivalent to CPython's
backtracking alternations (`1[0-2]|0[1-9]|[1-9]` and friends) combined with
the value-range validation done afterwards: whenever the two-digit take
misaligns or leaves an out-of-range value, the regex's shorter alternative
leaves a digit facing a literal and fails as well. -/
def takeDigits2 : List Char → Option (Nat × List Char)
  | c1 :: c2 :: rest =>
    match digitVal c1 with
    | none => none
    | some x =>
      match digitVal c2 with
      | some y => some (10 * x + y, rest)
      | none => some (x, c2 :: rest)
  | [c1] =>
    match digitVal c1 with
    | none => none
    | some x => some (x, [])
  | [] => none

/-- CPython's `%d` additionally accepts a space-padded single day digit
(the ` [1-9]` alternative); a digit 0 after the space is rejected by the
range validation, as the regex rejects it. -/
def takeDay : List Char → Option (Nat × List Char)
  | ' ' :: c :: rest =>
    match digitVal c with
    | none => none
    | some x => some (x, rest)
  | cs => takeDigits2 cs

def expectCh (c : Char) : List Char → Option (List Char)
  | x :: rest => if x = c then some rest else none
  | [] => none

/-- A literal letter of the format, matched case-insensitively: CPython
compiles the strptime pattern with `IGNORECASE`. -/
def expectAny (a b : Char) : List Char → Option (List Char)
  | x :: rest => if x = a ∨ x = b then some rest else none
  | [] => none

/-- `datetime.datetime.strptime(s, SELFCHECK_DATE_FMT)` with the format
`%Y-%m-%dT%H:%M:%SZ`: four year digits, one or two digits for each of
month/day/hour/minute/second (day also space-padded), `T` and `Z` matched
case-insensitively, the whole string consumed, and the `datetime`
constructor's range validation (month, day-of-month, hour, minute, and
second ≤ 59 — the regex-accepted leap seconds 60/61 still raise there).
`none` models the `ValueError` strptime raises on any other input. -/
def parseTimestamp (s : String) : Option DateTime := do
  let cs := s.toList
  let (yr, cs) ← takeDigits4 cs
  let cs ← expectCh '-' cs
  let (mo, cs) ← takeDigits2 cs
  let cs ← expectCh '-' cs
  let (dy, cs) ← takeDay cs
  let cs ← expectAny 'T' 't' cs
  let (hh, cs) ← takeDigits2 cs
  let cs ← expectCh ':' cs
  let (mi, cs) ← takeDigits2 cs
  let cs ← expectCh ':' cs
  let (ss, cs) ← takeDigits2 cs
  let cs ← expectAny 'Z' 'z' cs
  if cs = [] then
    let t : DateTime := ⟨yr, mo, dy, hh, mi, ss⟩
    if t.valid then some t else none
  else none

/-! ## The JSON state document

`selfcheck.json` parses to an object whose values are objects with string
values.  `SubObj` is one per-environment entry (e.g. the
`last_check` / `pypi_version` record); `Doc` is the whole document keyed by
environment key (`sys.prefix`). -/

/-- One JSON sub-object with string values. -/
def SubObj : Type := List (String × String)

/-- The whole `selfcheck.json` object: environment key ↦ entry. -/
def Doc : Type := List (String × SubObj)

instance : DecidableEq SubObj := by unfold SubObj; infer_instance

instance : DecidableEq Doc := by unfold Doc; infer_instance

/-- Python `dict` key access / `in` test: first binding of `k`. -/
def lookupKey (k : String) : List (String × α) → Option α
  | [] => none
  | p :: rest => if p.1 = k then some p.2 else lookupKey k rest

/-- Python `d[k] = v` viewed up to the serialized (key-sorted) form: drop any
old binding of `k` and append the new one. -/
def setKey (k : String) (v : α) (d : List (String × α)) : List (String × α) :=
  d.filter (fun p => p.1 ≠ k) ++ [(k, v)]

/-- Insertion sort by key, giving the deterministic key order of
`json.dump(..., sort_keys=True)`. -/
def insertByKey (p : String × α) : List (String × α) → List (String × α)
  | [] => [p]
  | q :: rest =>
      if compare p.1 q.1 = Ordering.gt then q :: insertByKey p rest
      else p :: q :: rest

def sortByKey (l : List (String × α)) : List (String × α) :=
  l.foldr insertByKey []

/-- JSON string escaping as `json.dump` performs it on the characters that
actually need it here (backslash and double quote; other characters are
emitted verbatim). -/
def jsonEscapeChar (c : Char) : String :=
  if c = '"' then "\\\"" else if c = '\\' then "\\\\" else String.singleton c

def jsonStr (s : String) : String :=
  "\"" ++ String.join (s.toList.map jsonEscapeChar) ++ "\""

/-- Serialize one entry with `sort_keys=True` and compact separators
`(",", ":")`. -/
def serializeSubObj (o : SubObj) : String :=
  "\x7b" ++
    String.intercalate ","
      ((sortByKey o).map (fun p => jsonStr p.1 ++ ":" ++ jsonStr p.2)) ++
  "\x7d"

/-- `json.dump(state, statefile, sort_keys=True, separators=(",", ":"))`. -/
def serialize (d : Doc) : String :=
  "\x7b" ++
    String.intercalate ","
      ((sortByKey d).map (fun p => jsonStr p.1 ++ ":" ++ serializeSubObj p.2)) ++
  "\x7d"

/-- The filesystem slot at the state-file path: the file is absent, or
present with its JSON parse result (`none` when the bytes are not valid
JSON) and its raw bytes. -/
inductive FileState where
  | absent : FileState
  | present (parsed : Option Doc) (bytes : String) : FileState
deriving DecidableEq

/-- The bytes the state file currently holds, if it exists. -/
def FileState.bytesOf : FileState → Option String
  | .absent => none
  | .present _ b => some b

/-! ## Structured versions

Modelled from the spec: the version component (`ins._vendor.packaging.version`)
is vendored outside `src/`, so its parsing and ordering are modelled from
§4.2/§8 and the glossary — semantic-version-like parsing with
pre-release/post-release awareness, a pre-release sorting before its final
release and a post-release after it, and `base_version` the release numerals
with all qualifiers stripped.  A string the structured grammar does not
accept parses as a legacy version, which sorts before every structured
version. -/

/-- A structured (PEP-440-like) version: release numerals, an optional
pre-release `(phase, number)` with phase 0=`a`, 1=`b`, 2=`rc`, an optional
post-release number and an optional dev number. -/
structure Version where
  release : List Nat
  pre : Option (Nat × Nat)
  post : Option Nat
  dev : Option Nat
deriving DecidableEq, Repr

/-- Result of `packaging.version.parse`: a structured version, or the legacy
fallback wrapping the raw string. -/
inductive PVersion where
  | legacy (s : String) : PVersion
  | pep (v : Version) : PVersion
deriving DecidableEq, Repr

def natOfDigits (cs : List Char) : Nat :=
  cs.foldl (fun a c => a * 10 + (c.toNat - 48)) 0

/-- Recognise a pre-release phase tag at the head of a character list. -/
def parsePreTag : List Char → Option (Nat × List Char)
  | 'r' :: 'c' :: rest => some (2, rest)
  | 'a' :: rest => some (0, rest)
  | 'b' :: rest => some (1, rest)
  | _ => none

/-- Scan the dot-separated parts of a version string for the release
numerals and an optional attached pre-release tag; returns the release,
the pre-release, and the unconsumed trailing parts. -/
def parseRelease : List String → List Nat → Option (List Nat × Option (Nat × Nat) × List String)
  | [], acc => if acc = [] then none else some (acc, none, [])
  | p :: rest, acc =>
    let cs := p.toList
    let ds := cs.takeWhile Char.isDigit
    let tl := cs.dropWhile Char.isDigit
    if tl = [] then
      if ds = [] then none
      else parseRelease rest (acc ++ [natOfDigits ds])
    else
      match parsePreTag tl with
      | some (ph, t2) =>
        if t2 ≠ [] ∧ t2.all Char.isDigit then
          let acc2 := if ds = [] then acc else acc ++ [natOfDigits ds]
          if acc2 = [] then none
          else some (acc2, some (ph, natOfDigits t2), rest)
        else none
      | none =>
        if ds = [] then
          if acc = [] then none else some (acc, none, p :: rest)
        else none

/-- Recognise a `postN` part. -/
def parsePostPart (p : String) : Option Nat :=
  match p.toList with
  | 'p' :: 'o' :: 's' :: 't' :: rest =>
      if rest ≠ [] ∧ rest.all Char.isDigit then some (natOfDigits rest) else none
  | _ => none

/-- Recognise a `devN` part. -/
def parseDevPart (p : String) : Option Nat :=
  match p.toList with
  | 'd' :: 'e' :: 'v' :: rest =>
      if rest ≠ [] ∧ rest.all Char.isDigit then some (natOfDigits rest) else none
  | _ => none

/-- Parse the trailing parts after the release: optional post, optional dev. -/
def parseQualifiers : List String → Option (Option Nat × Option Nat)
  | [] => some (none, none)
  | [p] =>
    match parsePostPart p with
    | some n => some (some n, none)
    | none =>
      match parseDevPart p with
      | some n => some (none, some n)
      | none => none
  | [p, q] =>
    match parsePostPart p, parseDevPart q with
    | some n, some m => some (some n, some m)
    | _, _ => none
  | _ => none

/-- `str.split(".")`, written with structural recursion so that it reduces
during kernel evaluation. -/
def splitDotAux : List Char → List Char → List String
  | [], acc => [String.mk acc.reverse]
  | c :: rest, acc =>
      if c = '.' then String.mk acc.reverse :: splitDotAux rest []
      else splitDotAux rest (c :: acc)

def splitDot (s : String) : List String :=
  splitDotAux s.toList []

def parsePep (s : String) : Option Version :=
  match parseRelease (splitDot s) [] with
  | none => none
  | some (rel, pre, tailParts) =>
    match parseQualifiers tailParts with
    | none => none
    | some (post, dev) => some ⟨rel, pre, post, dev⟩

/-- `packaging.version.parse`: structured when the grammar accepts the
string, legacy otherwise (parsing never fails). -/
def parsePVersion (s : String) : PVersion :=
  match parsePep s with
  | some v => .pep v
  | none => .legacy s

/-- Drop trailing zero release numerals, so `1.2` and `1.2.0` compare
equal. -/
def trimZeros (l : List Nat) : List Nat :=
  (l.reverse.dropWhile (fun n => n = 0)).reverse

def cmpListNat : List Nat → List Nat → Ordering
  | [], [] => .eq
  | [], _ :: _ => .lt
  | _ :: _, [] => .gt
  | a :: as, b :: bs => (compare a b).then (cmpListNat as bs)

/-- Pre-release sort key: a version that is only a dev release sorts below
everything, a version with no pre-release otherwise sorts above every
pre-release phase. -/
def preKeyOf (v : Version) : Nat × Nat × Nat :=
  match v.pre with
  | some (ph, n) => (1, ph, n)
  | none => if v.post = none ∧ v.dev ≠ none then (0, 0, 0) else (2, 0, 0)

/-- Post-release sort key: absence sorts below any post number. -/
def postKeyOf (v : Version) : Nat × Nat :=
  match v.post with
  | none => (0, 0)
  | some n => (1, n)

/-- Dev sort key: absence sorts above any dev number. -/
def devKeyOf (v : Version) : Nat × Nat :=
  match v.dev with
  | none => (1, 0)
  | some n => (0, n)

def cmpPair (a b : Nat × Nat) : Ordering :=
  (compare a.1 b.1).then (compare a.2 b.2)

def cmpTriple (a b : Nat × Nat × Nat) : Ordering :=
  (compare a.1 b.1).then (cmpPair a.2 b.2)

def vcompare (a b : Version) : Ordering :=
  (cmpListNat (trimZeros a.release) (trimZeros b.release)).then
    ((cmpTriple (preKeyOf a) (preKeyOf b)).then
      ((cmpPair (postKeyOf a) (postKeyOf b)).then
        (cmpPair (devKeyOf a) (devKeyOf b))))

/-- `<` on parse results: a legacy version sorts before every structured
version. -/
def ltPVersion : PVersion → PVersion → Bool
  | .legacy _, .pep _ => true
  | .pep _, .legacy _ => false
  | .legacy s, .legacy t =>
      match compare s t with
      | .lt => true
      | _ => false
  | .pep a, .pep b =>
      match vcompare a b with
      | .lt => true
      | _ => false

/-- The `base_version` attribute: release numerals joined by dots, all
qualifiers stripped; a legacy version is its own base. -/
def PVersion.base_version : PVersion → String
  | .legacy s => s
  | .pep v => String.intercalate "." (v.release.map toString)

/-! ## The State Store (`SelfCheckState`) -/

/-- The Python exceptions this subsystem can see. -/
inductive Exc where
  | valueError : Exc
  | networkError : Exc
  | lockError : Exc
deriving DecidableEq, Repr

/-- Why the initial read of the state file yielded nothing: the three
exception classes `SelfCheckState.__init__` catches. -/
inductive InitErr where
  | ioError : InitErr
  | valueError : InitErr
  | keyError : InitErr
deriving DecidableEq, Repr

/-- The body of the `try` in `SelfCheckState.__init__`:
`json.load(open(path))[sys.prefix]` — `IOError` when the file is absent,
`ValueError` when the bytes are not valid JSON, `KeyError` when the current
environment key is missing. -/
def readStateFile (fs : FileState) (envKey : String) : Except InitErr SubObj :=
  match fs with
  | .absent => .error .ioError
  | .present none _ => .error .valueError
  | .present (some d) _ =>
    match lookupKey envKey d with
    | none => .error .keyError
    | some e => .ok e

/-- The in-memory store: `statefile_path` and the entry loaded for the
current environment key. -/
structure SelfCheckState where
  statefile_path : Option String
  state : SubObj
deriving DecidableEq

/-- `SelfCheckState.__init__(cache_dir)`: with no cache dir the store is
inert; otherwise the path is `cache_dir/selfcheck.json` and the entry is
read best-effort, every read/parse/key failure swallowed into the empty
entry. -/
def SelfCheckState.load (cache_dir : String) (fs : FileState) (envKey : String) :
    SelfCheckState :=
  if cache_dir = "" then ⟨none, []⟩
  else
    let path := cache_dir ++ "/selfcheck.json"
    match readStateFile fs envKey with
    | .ok e => ⟨some path, e⟩
    | .error _ => ⟨some path, []⟩

/-- The entry `save` writes for the current key:
`(\x7b"last_check": current_time.strftime(...), "pypi_version": pypi_version\x7d)`. -/
def selfCheckEntry (pypi_version : String) (current_time : DateTime) : SubObj :=
  [("last_check", formatTimestamp current_time), ("pypi_version", pypi_version)]

/-- `SelfCheckState.save(pypi_version, current_time)`.

`owned` is the oracle answer of `check_path_owner` on the state file's
directory and `lockOk` whether `lockfile.LockFile` acquisition succeeds
(acquisition failure raises).  Inside the lock the existing file is re-read
with a bare `json.load` — there is no try/except around it, so an invalid
file raises `ValueError` out of `save`.  On success the whole document,
with this key's entry replaced, is rewritten deterministically. -/
def SelfCheckState.save (st : SelfCheckState) (envKey : String) (pypi_version : String)
    (current_time : DateTime) (owned : Bool) (lockOk : Bool) (fs : FileState) :
    Except Exc FileState :=
  match st.statefile_path with
  | none => .ok fs
  | some _ =>
    if owned = false then .ok fs
    else if lockOk = false then .error .lockError
    else
      match fs with
      | .present none _ => .error .valueError
      | .present (some d) _ =>
        let d' := setKey envKey (selfCheckEntry pypi_version current_time) d
        .ok (.present (some d') (serialize d'))
      | .absent =>
        let d' := setKey envKey (selfCheckEntry pypi_version current_time) ([] : Doc)
        .ok (.present (some d') (serialize d'))

/-! ## The Check Orchestrator (`ins_version_check`) -/

/-- What `pkg_resources.get_distribution("ins")` reports when it finds a
distribution: whether `INSTALLER` metadata exists and its lines. -/
structure PkgDist where
  hasInstallerMetadata : Bool
  installerLines : List String
deriving DecidableEq

/-- `was_installed_by_ins(pkg)`: `DistributionNotFound` (`none`) is
reported as `false`, otherwise the `INSTALLER` metadata must exist and
contain the line `"ins"`. -/
def was_installed_by_ins (dist : Option PkgDist) : Bool :=
  match dist with
  | none => false
  | some d => d.hasInstallerMetadata && d.installerLines.contains "ins"

/-- All the ambient inputs and external-collaborator answers one invocation
of `ins_version_check` consumes (§6 of the spec): options, the filesystem
slot of the state file, the clock, and the oracles. -/
structure Env where
  cache_dir : String
  envKey : String
  fs : FileState
  now : DateTime
  installedVersion : Option String
  findCandidate : Except Exc (Option String)
  owned : Bool
  lockOk : Bool
  dist : Option PkgDist
  windows : Bool

/-- Observable result of one invocation: an early silent return, the
warning (with the parsed installed version, the remote version string and
the platform-appropriate command named by the log line), a silent
completion, or the outer catch-all having logged an exception at debug
severity. -/
inductive Outcome where
  | noInstalledVersion : Outcome
  | noCandidate : Outcome
  | warned (installed : PVersion) (pypi : String) (cmd : String) : Outcome
  | done : Outcome
  | caught (e : Exc) : Outcome
deriving DecidableEq

/-- The freshness decision: if the loaded entry has both fields, parse
`last_check` (strptime raises `ValueError` on a malformed string) and treat
the cached version as authoritative iff strictly less than
`7 * 24 * 60 * 60` seconds have elapsed. -/
def freshCached (st : SelfCheckState) (now : DateTime) : Except Exc (Option String) :=
  match lookupKey "last_check" st.state, lookupKey "pypi_version" st.state with
  | some lc, some pv =>
    match parseTimestamp lc with
    | none => .error .valueError
    | some last_check =>
      if now.toSeconds - last_check.toSeconds < 7 * 24 * 60 * 60 then .ok (some pv)
      else .ok none
  | _, _ => .ok none

/-- The comparison-and-notify tail: warn iff the installed version is
structurally older, the base versions differ, and the tool installed
itself; the hint is `python -m ins` on Windows. -/
def compareAndNotify (insV : PVersion) (pypi : String) (dist : Option PkgDist)
    (windows : Bool) : Outcome :=
  if ltPVersion insV (parsePVersion pypi)
      && (insV.base_version != (parsePVersion pypi).base_version)
      && was_installed_by_ins dist then
    .warned insV pypi (if windows then "python -m ins" else "ins")
  else .done

/-- The body of the `try` in `ins_version_check`: load the store, decide
freshness, query the index and save when stale, then compare.  Every raise
point is before any write, so an `.error` leaves the filesystem as it
was. -/
def tryBody (env : Env) (insV : PVersion) : Except Exc (Outcome × FileState) :=
  let st := SelfCheckState.load env.cache_dir env.fs env.envKey
  match freshCached st env.now with
  | .error e => .error e
  | .ok (some pv) => .ok (compareAndNotify insV pv env.dist env.windows, env.fs)
  | .ok none =>
    match env.findCandidate with
    | .error e => .error e
    | .ok none => .ok (.noCandidate, env.fs)
    | .ok (some pypi) =>
      match SelfCheckState.save st env.envKey pypi env.now env.owned env.lockOk env.fs with
      | .error e => .error e
      | .ok fs2 => .ok (compareAndNotify insV pypi env.dist env.windows, fs2)

/-- `ins_version_check(session, options)`: silent return when the installed
version is undeterminable (the installed-version query and the version
parse are total per §6 — parse falls back to a legacy version); everything
after that runs inside the catch-all, which turns any exception into a
debug log entry. -/
def ins_version_check (env : Env) : Outcome × FileState :=
  match env.installedVersion with
  | none => (.noInstalledVersion, env.fs)
  | some s =>
    match tryBody env (parsePVersion s) with
    | .ok r => r
    | .error e => (.caught e, env.fs)

/-! ## Association-list lemmas -/

theorem lookupKey_filter_ne (k key : String) (h : k ≠ key) (d : List (String × α)) :
    lookupKey k (d.filter fun p => p.1 ≠ key) = lookupKey k d := by
  induction d with
  | nil => rfl
  | cons p rest ih =>
    simp only [ne_eq, decide_not] at ih
    rcases eq_or_ne p.1 key with hp | hp
    · simp [List.filter_cons, lookupKey, hp, Ne.symm h, ne_eq, decide_not, ih]
    · by_cases hpk : p.1 = k
      · simp [List.filter_cons, lookupKey, hp, hpk, h, ne_eq, decide_not]
      · simp [List.filter_cons, lookupKey, hp, hpk, ne_eq, decide_not, ih]

theorem lookupKey_filter_self (key : String) (d : List (String × α)) :
    lookupKey key (d.filter fun p => p.1 ≠ key) = none := by
  induction d with
  | nil => rfl
  | cons p rest ih =>
    simp only [ne_eq, decide_not] at ih
    rcases eq_or_ne p.1 key with hp | hp
    · simp [List.filter_cons, hp, ne_eq, decide_not, ih]
    · simp [List.filter_cons, lookupKey, hp, ne_eq, decide_not, ih]

theorem lookupKey_append (k : String) (l m : List (String × α)) :
    lookupKey k (l ++ m)
      = match lookupKey k l with
        | some v => some v
        | none => lookupKey k m := by
  induction l with
  | nil => rfl
  | cons p rest ih =>
    by_cases hp : p.1 = k
    · simp [List.cons_append, lookupKey, hp]
    · simp [List.cons_append, lookupKey, hp, ih]

/-- Every key other than `key` still binds to its old value after `setKey`. -/
theorem lookupKey_setKey_ne (k key : String) (v : α) (d : List (String × α))
    (h : k ≠ key) : lookupKey k (setKey key v d) = lookupKey k d := by
  unfold setKey
  rw [lookupKey_append, lookupKey_filter_ne k key h d]
  cases hv : lookupKey k d with
  | some w => rfl
  | none => simp [lookupKey, Ne.symm h]

/-- The written key binds to the new value after `setKey`. -/
theorem lookupKey_setKey_self (key : String) (v : α) (d : List (String × α)) :
    lookupKey key (setKey key v d) = some v := by
  unfold setKey
  rw [lookupKey_append, lookupKey_filter_self key d]
  simp [lookupKey]

theorem filter_ne_idem (key : String) (d : List (String × α)) :
    ((d.filter fun p => p.1 ≠ key).filter fun p => p.1 ≠ key)
      = d.filter fun p => p.1 ≠ key := by
  induction d with
  | nil => rfl
  | cons p rest ih =>
    simp only [ne_eq, decide_not] at ih
    rcases eq_or_ne p.1 key with hp | hp
    · simp [List.filter_cons, hp, ne_eq, decide_not, ih]
    · simp [List.filter_cons, hp, ne_eq, decide_not, ih]

/-- Writing the same binding twice is the same as writing it once. -/
theorem setKey_idem (key : String) (v : α) (d : List (String × α)) :
    setKey key v (setKey key v d) = setKey key v d := by
  unfold setKey
  rw [List.filter_append, filter_ne_idem]
  simp [List.filter_cons]



/-! ## Path lemmas for the orchestrator -/

theorem freshCached_of_fresh (st : SelfCheckState) (now : DateTime) (lc pv : String)
    (t0 : DateTime)
    (hlc : lookupKey "last_check" st.state = some lc)
    (hpv : lookupKey "pypi_version" st.state = some pv)
    (ht : parseTimestamp lc = some t0)
    (hfresh : now.toSeconds - t0.toSeconds < 7 * 24 * 60 * 60) :
    freshCached st now = .ok (some pv) := by
  unfold freshCached
  simp only [hlc, hpv, ht]
  simp only [show (7 * 24 * 60 * 60 : Int) = 604800 by norm_num] at hfresh
  simp [hfresh]

theorem freshCached_of_stale (st : SelfCheckState) (now : DateTime) (lc pv : String)
    (t0 : DateTime)
    (hlc : lookupKey "last_check" st.state = some lc)
    (hpv : lookupKey "pypi_version" st.state = some pv)
    (ht : parseTimestamp lc = some t0)
    (hstale : 7 * 24 * 60 * 60 ≤ now.toSeconds - t0.toSeconds) :
    freshCached st now = .ok none := by
  unfold freshCached
  simp only [hlc, hpv, ht]
  simp only [show (7 * 24 * 60 * 60 : Int) = 604800 by norm_num] at hstale
  simp [not_lt.mpr hstale]

theorem freshCached_of_badTimestamp (st : SelfCheckState) (now : DateTime) (lc pv : String)
    (hlc : lookupKey "last_check" st.state = some lc)
    (hpv : lookupKey "pypi_version" st.state = some pv)
    (ht : parseTimestamp lc = none) :
    freshCached st now = .error .valueError := by
  unfold freshCached
  simp only [hlc, hpv, ht]

theorem tryBody_of_fresh (env : Env) (insV : PVersion) (pv : String)
    (h : freshCached (SelfCheckState.load env.cache_dir env.fs env.envKey) env.now
          = .ok (some pv)) :
    tryBody env insV = .ok (compareAndNotify insV pv env.dist env.windows, env.fs) := by
  simp only [tryBody, h]

theorem tryBody_of_freshCached_error (env : Env) (insV : PVersion) (e : Exc)
    (h : freshCached (SelfCheckState.load env.cache_dir env.fs env.envKey) env.now
          = .error e) :
    tryBody env insV = .error e := by
  simp only [tryBody, h]

theorem tryBody_of_stale (env : Env) (insV : PVersion)
    (h : freshCached (SelfCheckState.load env.cache_dir env.fs env.envKey) env.now
          = .ok none)
    (e : Exc) (hq : env.findCandidate = .error e) :
    tryBody env insV = .error e := by
  simp only [tryBody, h, hq]

/-! ## Concrete fixtures used by witnesses and counterexamples -/

def tW : DateTime := ⟨2026, 1, 8, 0, 0, 0⟩

def entryOld : SubObj := [("last_check", "2026-01-01T00:00:00Z"), ("pypi_version", "1.5.0")]

def docW : Doc := [("/other/prefix", entryOld)]

def stW : SelfCheckState := ⟨some "/cache/selfcheck.json", []⟩

def envCatchW : Env :=
  ⟨"/cache", "/env", .absent, tW, some "1.0.0", .error .networkError, true, true, none, false⟩

/-! ## Claims -/

/-- C1: saving the current environment key's entry into a state file that
already holds entries for other keys rewrites the document with the current
key bound to the new `last_check`/`pypi_version` entry and every other
key's entry unchanged. -/
theorem save_preserves_other_keys (st : SelfCheckState) (path envKey pypi : String)
    (t : DateTime) (d : Doc) (b : String)
    (hpath : st.statefile_path = some path) :
    SelfCheckState.save st envKey pypi t true true (.present (some d) b)
      = .ok (.present (some (setKey envKey (selfCheckEntry pypi t) d))
               (serialize (setKey envKey (selfCheckEntry pypi t) d)))
    ∧ lookupKey envKey (setKey envKey (selfCheckEntry pypi t) d)
        = some (selfCheckEntry pypi t)
    ∧ ∀ k, k ≠ envKey →
        lookupKey k (setKey envKey (selfCheckEntry pypi t) d) = lookupKey k d := by
  refine ⟨?_, lookupKey_setKey_self envKey _ d,
    fun k hk => lookupKey_setKey_ne k envKey _ d hk⟩
  unfold SelfCheckState.save
  rw [hpath]
  simp

/-- Witness for `save_preserves_other_keys`: a concrete save into a file
holding another key's entry keeps that entry. -/
theorem save_preserves_other_keys_witness :
    SelfCheckState.save stW "/env" "2.0.0" tW true true (.present (some docW) "x")
      = .ok (.present (some (setKey "/env" (selfCheckEntry "2.0.0" tW) docW))
               (serialize (setKey "/env" (selfCheckEntry "2.0.0" tW) docW)))
    ∧ lookupKey "/other/prefix" (setKey "/env" (selfCheckEntry "2.0.0" tW) docW)
        = lookupKey "/other/prefix" docW :=
  ⟨(save_preserves_other_keys stW "/cache/selfcheck.json" "/env" "2.0.0" tW docW "x" rfl).1,
   (save_preserves_other_keys stW "/cache/selfcheck.json" "/env" "2.0.0" tW docW "x"
      rfl).2.2 "/other/prefix" (by decide)⟩

/-- C2: the check body runs inside a top-level catch-all: whenever any step
of the body raises, `ins_version_check` still returns normally, the
exception only logged at debug severity (`Outcome.caught`) and the
filesystem untouched. -/
theorem ins_version_check_catches (env : Env) (s : String) (e : Exc)
    (hs : env.installedVersion = some s)
    (he : tryBody env (parsePVersion s) = .error e) :
    ins_version_check env = (.caught e, env.fs) := by
  simp only [ins_version_check, hs, he]

/-- Witness for `ins_version_check_catches`: a network failure from the
index query is caught and logged, not propagated. -/
theorem ins_version_check_catches_witness :
    envCatchW.installedVersion = some "1.0.0"
    ∧ tryBody envCatchW (parsePVersion "1.0.0") = .error .networkError
    ∧ ins_version_check envCatchW = (.caught .networkError, .absent) :=
  ⟨rfl, rfl, ins_version_check_catches envCatchW "1.0.0" .networkError rfl rfl⟩

theorem load_of_read_error (cache_dir : String) (fs : FileState) (envKey : String)
    (e : InitErr) (hdir : cache_dir ≠ "")
    (hread : readStateFile fs envKey = .error e) :
    SelfCheckState.load cache_dir fs envKey
      = ⟨some (cache_dir ++ "/selfcheck.json"), []⟩ := by
  unfold SelfCheckState.load
  rw [if_neg hdir, hread]

/-- C5: constructing the state store over an absent, unreadable-as-JSON, or
key-less state file returns normally with an empty in-memory entry (the
constructor is a total function; all three read failures are swallowed). -/
theorem load_swallows_read_failures (cache_dir : String) (fs : FileState)
    (envKey : String) (e : InitErr) (hdir : cache_dir ≠ "")
    (hread : readStateFile fs envKey = .error e) :
    SelfCheckState.load cache_dir fs envKey
      = ⟨some (cache_dir ++ "/selfcheck.json"), []⟩ :=
  load_of_read_error cache_dir fs envKey e hdir hread

/-- Witness for `load_swallows_read_failures`: a state file with invalid
JSON loads as the empty entry. -/
theorem load_swallows_read_failures_witness :
    readStateFile (.present none "not json") "/env" = .error .valueError
    ∧ SelfCheckState.load "/cache" (.present none "not json") "/env"
        = ⟨some "/cache/selfcheck.json", []⟩ :=
  ⟨rfl, load_swallows_read_failures "/cache" (.present none "not json") "/env"
      .valueError (by decide) rfl⟩

/-- C7: when the directory-ownership predicate fails, `save` returns
without raising and leaves the filesystem slot exactly as it was. -/
theorem save_ownership_gate (st : SelfCheckState) (path envKey pypi : String)
    (t : DateTime) (lockOk : Bool) (fs : FileState)
    (hpath : st.statefile_path = some path) :
    SelfCheckState.save st envKey pypi t false lockOk fs = .ok fs := by
  unfold SelfCheckState.save
  rw [hpath]
  simp

/-- Witness for `save_ownership_gate`: an unowned cache directory makes a
concrete save a no-op on an existing file. -/
theorem save_ownership_gate_witness :
    SelfCheckState.save stW "/env" "2.0.0" tW false true (.present (some docW) "x")
      = .ok (.present (some docW) "x") :=
  save_ownership_gate stW "/cache/selfcheck.json" "/env" "2.0.0" tW true
    (.present (some docW) "x") rfl

def fsFreshW : FileState := .present (some [("/env", entryOld)]) "x"

def envFreshW : Env :=
  ⟨"/cache", "/env", fsFreshW, ⟨2026, 1, 8, 0, 0, 0⟩, some "1.0.0",
   .ok (some "2.0.0"), true, true, some ⟨true, ["ins"]⟩, false⟩

/-- C3: with a cached entry holding both fields and a parseable timestamp,
the remote query is skipped iff strictly less than `7 * 24 * 3600` seconds
have elapsed: when fresh, the invocation ends at the comparison against the
cached version with the file untouched, whatever the index oracle would
answer; at exactly the window or beyond, the index is queried (a failing
query reaches the body as that very failure). -/
theorem freshness_window_strict (env : Env) (insV : PVersion) (lc pv : String)
    (t0 : DateTime)
    (hlc : lookupKey "last_check"
        (SelfCheckState.load env.cache_dir env.fs env.envKey).state = some lc)
    (hpv : lookupKey "pypi_version"
        (SelfCheckState.load env.cache_dir env.fs env.envKey).state = some pv)
    (ht : parseTimestamp lc = some t0) :
    (env.now.toSeconds - t0.toSeconds < 7 * 24 * 60 * 60 →
      ∀ q : Except Exc (Option String),
        tryBody { env with findCandidate := q } insV
          = .ok (compareAndNotify insV pv env.dist env.windows, env.fs)) ∧
    (7 * 24 * 60 * 60 ≤ env.now.toSeconds - t0.toSeconds →
      ∀ e : Exc,
        tryBody { env with findCandidate := Except.error e } insV = .error e) := by
  constructor
  · intro hfresh q
    exact tryBody_of_fresh _ insV pv
      (freshCached_of_fresh _ _ lc pv t0 hlc hpv ht hfresh)
  · intro hstale e
    exact tryBody_of_stale { env with findCandidate := Except.error e } insV
      (freshCached_of_stale _ _ lc pv t0 hlc hpv ht hstale) e rfl

/-- Witness for `freshness_window_strict` at the boundary: elapsed time
exactly `7 * 24 * 3600` seconds is stale, so the index query is performed
(its failure reaches the body). -/
theorem freshness_window_strict_witness :
    parseTimestamp "2026-01-01T00:00:00Z" = some ⟨2026, 1, 1, 0, 0, 0⟩
    ∧ envFreshW.now.toSeconds - DateTime.toSeconds ⟨2026, 1, 1, 0, 0, 0⟩
        = 7 * 24 * 60 * 60
    ∧ tryBody { envFreshW with findCandidate := Except.error Exc.networkError }
        (parsePVersion "1.0.0") = .error .networkError :=
  ⟨rfl, by decide,
   (freshness_window_strict envFreshW (parsePVersion "1.0.0") "2026-01-01T00:00:00Z"
      "1.5.0" ⟨2026, 1, 1, 0, 0, 0⟩ rfl rfl rfl).2 (by decide) .networkError⟩

def entryFuture : SubObj := [("last_check", "2027-01-01T00:00:00Z"), ("pypi_version", "1.5.0")]

def envFutureW : Env :=
  ⟨"/cache", "/env", .present (some [("/env", entryFuture)]) "x", ⟨2026, 6, 1, 12, 0, 0⟩,
   some "1.0.0", .ok (some "2.0.0"), true, true, none, false⟩

/-- C10: a cached `last_check` lying in the future makes the elapsed time
negative, hence strictly below the 7-day window: the cached version is
treated as fresh, no remote query is issued (the result is the same for any
index oracle) and no save occurs (the filesystem slot is unchanged). -/
theorem future_timestamp_is_fresh (env : Env) (insV : PVersion) (lc pv : String)
    (t0 : DateTime)
    (hlc : lookupKey "last_check"
        (SelfCheckState.load env.cache_dir env.fs env.envKey).state = some lc)
    (hpv : lookupKey "pypi_version"
        (SelfCheckState.load env.cache_dir env.fs env.envKey).state = some pv)
    (ht : parseTimestamp lc = some t0)
    (hfut : env.now.toSeconds < t0.toSeconds) :
    ∀ q : Except Exc (Option String),
      tryBody { env with findCandidate := q } insV
        = .ok (compareAndNotify insV pv env.dist env.windows, env.fs) := by
  intro q
  exact tryBody_of_fresh { env with findCandidate := q } insV pv
    (freshCached_of_fresh _ _ lc pv t0 hlc hpv ht
      (show env.now.toSeconds - t0.toSeconds < 7 * 24 * 60 * 60 by omega))

/-- Witness for `future_timestamp_is_fresh`: a 2027 timestamp read in 2026
skips the query and the save. -/
theorem future_timestamp_is_fresh_witness :
    DateTime.toSeconds envFutureW.now < DateTime.toSeconds ⟨2027, 1, 1, 0, 0, 0⟩
    ∧ tryBody { envFutureW with findCandidate := Except.error Exc.networkError }
        (parsePVersion "1.0.0")
      = .ok (compareAndNotify (parsePVersion "1.0.0") "1.5.0" none false, envFutureW.fs) :=
  ⟨by decide,
   future_timestamp_is_fresh envFutureW (parsePVersion "1.0.0") "2027-01-01T00:00:00Z"
     "1.5.0" ⟨2027, 1, 1, 0, 0, 0⟩ rfl rfl rfl (by decide)
     (Except.error Exc.networkError)⟩

/-- C4: once the comparison is reached (here: via a fresh cached version),
the upgrade warning is emitted iff all three conditions hold — the
installed version is structurally older than the remote one, their base
versions differ, and the provenance check reports self-installation.  In
particular a qualifier-only difference (equal base versions) never
warns. -/
theorem notify_iff_conditions (env : Env) (s lc pv : String) (t0 : DateTime)
    (hs : env.installedVersion = some s)
    (hlc : lookupKey "last_check"
        (SelfCheckState.load env.cache_dir env.fs env.envKey).state = some lc)
    (hpv : lookupKey "pypi_version"
        (SelfCheckState.load env.cache_dir env.fs env.envKey).state = some pv)
    (ht : parseTimestamp lc = some t0)
    (hfresh : env.now.toSeconds - t0.toSeconds < 7 * 24 * 60 * 60) :
    (ins_version_check env).1
        = .warned (parsePVersion s) pv (if env.windows then "python -m ins" else "ins")
      ↔ (ltPVersion (parsePVersion s) (parsePVersion pv) = true
          ∧ (parsePVersion s).base_version ≠ (parsePVersion pv).base_version
          ∧ was_installed_by_ins env.dist = true) := by
  have hbody := tryBody_of_fresh env (parsePVersion s) pv
    (freshCached_of_fresh _ _ lc pv t0 hlc hpv ht hfresh)
  simp only [ins_version_check, hs, hbody]
  unfold compareAndNotify
  rcases hcond : (ltPVersion (parsePVersion s) (parsePVersion pv)
      && ((parsePVersion s).base_version != (parsePVersion pv).base_version)
      && was_installed_by_ins env.dist) with _ | _
  · constructor
    · intro h
      simp only [reduceIte] at h
      exact Outcome.noConfusion h
    · rintro ⟨h1, h2, h3⟩
      exfalso
      rw [h1, h3] at hcond
      simp [bne_iff_ne] at hcond
      exact h2 hcond
  · simp only [Bool.and_eq_true, bne_iff_ne, ne_eq] at hcond
    constructor
    · intro _
      exact ⟨hcond.1.1, hcond.1.2, hcond.2⟩
    · intro _
      simp only [reduceIte]

def envNotifyW : Env :=
  ⟨"/cache", "/env",
   .present (some [("/env", [("last_check", "2026-01-01T00:00:00Z"),
     ("pypi_version", "1.2.1")])]) "x",
   ⟨2026, 1, 2, 0, 0, 0⟩, some "1.2.0", .ok none, true, true,
   some ⟨true, ["ins"]⟩, false⟩

/-- Witness for `notify_iff_conditions`: installed `1.2.0`, cached remote
`1.2.1`, self-installed — the warning fires with the correct hint. -/
theorem notify_iff_conditions_witness :
    envNotifyW.installedVersion = some "1.2.0"
    ∧ parseTimestamp "2026-01-01T00:00:00Z" = some ⟨2026, 1, 1, 0, 0, 0⟩
    ∧ envNotifyW.now.toSeconds - DateTime.toSeconds ⟨2026, 1, 1, 0, 0, 0⟩
        < 7 * 24 * 60 * 60
    ∧ (ins_version_check envNotifyW).1 = .warned (parsePVersion "1.2.0") "1.2.1" "ins" :=
  ⟨rfl, rfl, by decide,
   (notify_iff_conditions envNotifyW "1.2.0" "2026-01-01T00:00:00Z" "1.2.1"
      ⟨2026, 1, 1, 0, 0, 0⟩ rfl rfl rfl rfl (by decide)).mpr
     ⟨rfl, by decide, rfl⟩⟩

/-- C8: two consecutive saves of the same `(version, timestamp)` pair from
the same key, with no interleaved writer, leave the identical file state,
hence byte-identical file content: the rewrite of an unchanged document
serializes to the same bytes. -/
theorem save_idempotent_bytes (st : SelfCheckState) (envKey pypi : String)
    (t : DateTime) (fs fs1 fs2 : FileState)
    (h1 : SelfCheckState.save st envKey pypi t true true fs = .ok fs1)
    (h2 : SelfCheckState.save st envKey pypi t true true fs1 = .ok fs2) :
    fs2 = fs1 ∧ fs2.bytesOf = fs1.bytesOf := by
  have hmain : fs2 = fs1 := by
    cases hp : st.statefile_path with
    | none =>
      unfold SelfCheckState.save at h1 h2
      rw [hp] at h1 h2
      injection h1 with h1
      subst h1
      injection h2 with h2
      subst h2
      rfl
    | some p =>
      unfold SelfCheckState.save at h1 h2
      rw [hp] at h1 h2
      simp only [reduceIte] at h1 h2
      cases fs with
      | absent =>
        injection h1 with h1
        subst h1
        injection h2 with h2
        subst h2
        rw [setKey_idem]
      | present parsed b =>
        cases parsed with
        | none => exact Except.noConfusion h1
        | some d =>
          injection h1 with h1
          subst h1
          injection h2 with h2
          subst h2
          rw [setKey_idem]
  exact ⟨hmain, by rw [hmain]⟩

def doc1W : Doc := setKey "/env" (selfCheckEntry "2.0.0" tW) []

def fs1W : FileState := .present (some doc1W) (serialize doc1W)

/-- Witness for `save_idempotent_bytes`: a first save into an absent file
followed by a second identical save reproduces the same file state. -/
theorem save_idempotent_bytes_witness :
    SelfCheckState.save stW "/env" "2.0.0" tW true true .absent = .ok fs1W
    ∧ SelfCheckState.save stW "/env" "2.0.0" tW true true fs1W
        = .ok (.present (some (setKey "/env" (selfCheckEntry "2.0.0" tW) doc1W))
                 (serialize (setKey "/env" (selfCheckEntry "2.0.0" tW) doc1W)))
    ∧ FileState.present (some (setKey "/env" (selfCheckEntry "2.0.0" tW) doc1W))
        (serialize (setKey "/env" (selfCheckEntry "2.0.0" tW) doc1W)) = fs1W :=
  ⟨rfl, rfl,
   (save_idempotent_bytes stW "/env" "2.0.0" tW .absent fs1W
      (.present (some (setKey "/env" (selfCheckEntry "2.0.0" tW) doc1W))
        (serialize (setKey "/env" (selfCheckEntry "2.0.0" tW) doc1W))) rfl rfl).1⟩

/-- C6 counterexample: a save against an existing but unparseable state
file does not treat the document as empty and proceed to write — the
locked re-read's parse error propagates out of `save`. -/
theorem save_parse_error_counterexample :
    SelfCheckState.save stW "/env" "1.0.0" tW true true (.present none "not json")
      = .error .valueError :=
  rfl

/-- C6 (amended): when the locked re-read of an existing state file fails
to parse, the parse error raises out of `save` (nothing is written); the
orchestrator's outer catch-all then absorbs it, so the invocation still
completes normally with the file unchanged. -/
theorem save_parse_error_raises_to_catchall (env : Env) (s b pypi : String)
    (hs : env.installedVersion = some s)
    (hfs : env.fs = .present none b)
    (hdir : env.cache_dir ≠ "")
    (hown : env.owned = true) (hlock : env.lockOk = true)
    (hq : env.findCandidate = .ok (some pypi)) :
    SelfCheckState.save (SelfCheckState.load env.cache_dir env.fs env.envKey)
        env.envKey pypi env.now true true env.fs = .error .valueError
    ∧ ins_version_check env = (.caught .valueError, env.fs) := by
  have hload : SelfCheckState.load env.cache_dir env.fs env.envKey
      = ⟨some (env.cache_dir ++ "/selfcheck.json"), []⟩ :=
    load_of_read_error env.cache_dir env.fs env.envKey .valueError hdir
      (by rw [hfs]; exact rfl)
  have hsave : SelfCheckState.save (SelfCheckState.load env.cache_dir env.fs env.envKey)
      env.envKey pypi env.now true true env.fs = .error .valueError := by
    rw [hload, hfs]
    exact rfl
  have hfreshc : freshCached (SelfCheckState.load env.cache_dir env.fs env.envKey) env.now
      = .ok none := by
    rw [hload]
    exact rfl
  have hbody : tryBody env (parsePVersion s) = .error .valueError := by
    simp only [tryBody, hfreshc, hq, hown, hlock, hsave]
  exact ⟨hsave, by simp only [ins_version_check, hs, hbody]⟩

def envParseErrW : Env :=
  ⟨"/cache", "/env", .present none "not json", tW, some "1.0.0",
   .ok (some "2.0.0"), true, true, none, false⟩

/-- Witness for `save_parse_error_raises_to_catchall` at a concrete
environment with a corrupt state file. -/
theorem save_parse_error_raises_to_catchall_witness :
    envParseErrW.installedVersion = some "1.0.0"
    ∧ envParseErrW.fs = .present none "not json"
    ∧ SelfCheckState.save
        (SelfCheckState.load "/cache" (.present none "not json") "/env")
        "/env" "2.0.0" tW true true (.present none "not json") = .error .valueError
    ∧ ins_version_check envParseErrW = (.caught .valueError, .present none "not json") :=
  ⟨rfl, rfl,
   (save_parse_error_raises_to_catchall envParseErrW "1.0.0" "not json" "2.0.0"
      rfl rfl (by decide) rfl rfl rfl).1,
   (save_parse_error_raises_to_catchall envParseErrW "1.0.0" "not json" "2.0.0"
      rfl rfl (by decide) rfl rfl rfl).2⟩

def entryBadW : SubObj := [("last_check", "not-a-timestamp"), ("pypi_version", "9.9.9")]

def envBadTsW : Env :=
  ⟨"/cache", "/env", .present (some [("/env", entryBadW)]) "x", tW, some "1.0.0",
   .ok (some "2.0.0"), true, true, some ⟨true, ["ins"]⟩, false⟩

def envNoFieldsW : Env := { envBadTsW with fs := .present (some [("/env", [])]) "x" }

/-- The comparison tail never warns when the remote string only parses as
a legacy version: a legacy version is never structurally above a
structured installed version, so the three-way condition is false. -/
theorem check_done_of_fresh_legacy (env : Env) (s : String) (v : Version) (pv : String)
    (hs : env.installedVersion = some s)
    (hv : parsePep s = some v)
    (hpp : parsePep pv = none)
    (hfr : freshCached (SelfCheckState.load env.cache_dir env.fs env.envKey) env.now
        = .ok (some pv)) :
    ins_version_check env = (.done, env.fs) := by
  have hs' : parsePVersion s = .pep v := by unfold parsePVersion; rw [hv]
  have hpv' : parsePVersion pv = .legacy pv := by unfold parsePVersion; rw [hpp]
  have hcn : compareAndNotify (parsePVersion s) pv env.dist env.windows = .done := by
    unfold compareAndNotify
    rw [hs', hpv']
    simp [ltPVersion]
  have hbody := tryBody_of_fresh env (parsePVersion s) pv hfr
  simp only [ins_version_check, hs, hbody, hcn]

def entryBadVerW : SubObj :=
  [("last_check", "2026-01-01T00:00:00Z"), ("pypi_version", "not!a!version")]

def envBadVerW : Env :=
  ⟨"/cache", "/env", .present (some [("/env", entryBadVerW)]) "x", ⟨2026, 1, 2, 0, 0, 0⟩,
   some "1.0.0", .error .networkError, true, true, some ⟨true, ["ins"]⟩, false⟩

def envBadVerNoFieldsW : Env := { envBadVerW with fs := .present (some [("/env", [])]) "x" }

/-- C9 counterexample: invalid cached data is not treated as absent.  A
cached entry with a malformed `last_check` makes the invocation abort
through the catch-all (no query, no save), and a cached entry with a
malformed `pypi_version` under a fresh timestamp is served from the cache
(the run completes silently without ever consulting the index oracle,
whose answer here is a network failure); both behaviours differ observably
from running with the cached fields absent. -/
theorem bad_cached_data_counterexample :
    (ins_version_check envBadTsW = (.caught .valueError, envBadTsW.fs)
      ∧ ins_version_check envBadTsW ≠ ins_version_check envNoFieldsW)
    ∧ (ins_version_check envBadVerW = (.done, envBadVerW.fs)
      ∧ ins_version_check envBadVerW ≠ ins_version_check envBadVerNoFieldsW) :=
  ⟨⟨rfl, by decide⟩, ⟨rfl, by decide⟩⟩

/-- C9 (amended): invalid cached data is not treated as absent.  A cached
`last_check` string strptime rejects makes the freshness step raise, and
the outer catch-all abandons the entire check for this invocation (no
remote query, no save, no warning, file unchanged) while still returning
normally.  A cached version string the structured grammar rejects is not
treated as absent either: under a fresh timestamp it is used as the
authoritative cached version — the index oracle is never consulted — and,
parsed as a legacy version (which never compares above a structured
installed version), it produces no warning. -/
theorem invalid_cached_data_not_treated_absent :
    (∀ (env : Env) (s lc pv : String),
      env.installedVersion = some s →
      lookupKey "last_check"
          (SelfCheckState.load env.cache_dir env.fs env.envKey).state = some lc →
      lookupKey "pypi_version"
          (SelfCheckState.load env.cache_dir env.fs env.envKey).state = some pv →
      parseTimestamp lc = none →
      ins_version_check env = (.caught .valueError, env.fs))
    ∧ (∀ (env : Env) (s : String) (v : Version) (lc pv : String) (t0 : DateTime),
      env.installedVersion = some s →
      parsePep s = some v →
      lookupKey "last_check"
          (SelfCheckState.load env.cache_dir env.fs env.envKey).state = some lc →
      lookupKey "pypi_version"
          (SelfCheckState.load env.cache_dir env.fs env.envKey).state = some pv →
      parseTimestamp lc = some t0 →
      env.now.toSeconds - t0.toSeconds < 7 * 24 * 60 * 60 →
      parsePep pv = none →
      ∀ q : Except Exc (Option String),
        ins_version_check { env with findCandidate := q } = (.done, env.fs)) := by
  constructor
  · intro env s lc pv hs hlc hpv ht
    have hbody := tryBody_of_freshCached_error env (parsePVersion s) .valueError
      (freshCached_of_badTimestamp _ _ lc pv hlc hpv ht)
    simp only [ins_version_check, hs, hbody]
  · intro env s v lc pv t0 hs hv hlc hpv ht hfresh hpp q
    exact check_done_of_fresh_legacy { env with findCandidate := q } s v pv hs hv hpp
      (freshCached_of_fresh _ _ lc pv t0 hlc hpv ht hfresh)

def vW : Version := ⟨[1, 0, 0], none, none, none⟩

/-- Witness for `invalid_cached_data_not_treated_absent`, both parts at
concrete environments: the malformed timestamp aborts through the
catch-all; the malformed version string is served from the cache whatever
the index oracle would answer. -/
theorem invalid_cached_data_not_treated_absent_witness :
    (parseTimestamp "not-a-timestamp" = none
      ∧ ins_version_check envBadTsW = (.caught .valueError, envBadTsW.fs))
    ∧ (parsePep "1.0.0" = some vW
      ∧ parsePep "not!a!version" = none
      ∧ ins_version_check { envBadVerW with findCandidate := Except.ok (some "9.9.9") }
          = (.done, envBadVerW.fs)) :=
  ⟨⟨rfl, invalid_cached_data_not_treated_absent.1 envBadTsW "1.0.0" "not-a-timestamp"
      "9.9.9" rfl rfl rfl rfl⟩,
   ⟨rfl, rfl, invalid_cached_data_not_treated_absent.2 envBadVerW "1.0.0" vW
      "2026-01-01T00:00:00Z" "not!a!version" ⟨2026, 1, 1, 0, 0, 0⟩ rfl rfl rfl rfl rfl
      (by decide) rfl (Except.ok (some "9.9.9"))⟩⟩
